import Mathlib

/- Shallow embedding of the cluster controller in
   fdbserver/ClusterController.actor.cpp: the fitness and locality model,
   the recruitment engine, the failure detection server, the worker
   registry, the master registration path and the db-info long polls.
   External collaborators (the failure monitor, the replication policy,
   findBestPolicySet, the random source) are taken as parameters. -/

namespace CCModel

/- Errors thrown by the embedded functions (no_more_servers,
   operation_failed, future_version, internal_error from ASSERT). -/
inductive CCError where
  | noMoreServers
  | operationFailed
  | futureVersion
  | internalError
  deriving DecidableEq, Repr

/- ProcessClass::Fitness: BestFit = 0, GoodFit, UnsetFit, WorstFit,
   NeverAssign = 4 (an ordinal over Nat, smaller is better). -/
def bestFit : Nat := 0
def goodFit : Nat := 1
def unsetFit : Nat := 2
def worstFit : Nat := 3
def neverAssign : Nat := 4

/- ProcessClass::ClassType (only UnsetClass is distinguished by the code
   under study; the rest are carried opaquely). -/
inductive ClassType where
  | unset
  | master
  | tlog
  | proxy
  | resolver
  | storage
  | tester
  deriving DecidableEq, Repr

/- ProcessClass::ClassSource. -/
inductive ClassSource where
  | commandLine
  | db
  | auto
  | unsetSrc
  deriving DecidableEq, Repr

/- ProcessClass is a (type, source) pair. -/
structure ProcessClass where
  classType : ClassType
  classSource : ClassSource
  deriving DecidableEq, Repr

/- ProcessClass::ClusterRole as used by machineClassFitness. -/
inductive ClusterRole where
  | masterRole
  | tlogRole
  | proxyRole
  | resolverRole
  | storageRole
  deriving DecidableEq, Repr

/- LocalityData: every component optional; opaque ids are numbered. -/
structure Locality where
  processId : Option Nat
  zoneId : Option Nat
  dataHallId : Option Nat
  dcId : Option Nat
  deriving DecidableEq, Repr

/- WorkerInterface: the interface id, the network address and the
   locality (the only parts the cluster controller inspects). -/
structure Worker where
  wid : Nat
  addr : Nat
  locality : Locality
  deriving DecidableEq, Repr

/- WorkerInfo: one registry entry owned by the cluster controller.
   watcher and reply are opaque task / promise tokens. -/
structure WorkerInfo where
  watcher : Nat
  reply : Nat
  gen : Int
  reboots : Nat
  interf : Worker
  initialClass : ProcessClass
  processClass : ProcessClass
  deriving DecidableEq, Repr

/- workerAvailable: the failure monitor reports the storage endpoint
   available, and with checkStable also reboots < 2. -/
def workerAvailable (avail : Worker → Bool) (w : WorkerInfo) (checkStable : Bool) : Bool :=
  avail w.interf && (!checkStable || w.reboots < 2)

/- InDatacenterFitness (proxyFit, resolverFit, proxyCount, resolverCount).
   The default constructor sets both fits to NeverAssign and leaves the
   counts uninitialized in the C++; they are modelled as 0 (they are never
   compared while both fits are NeverAssign and real placements have
   fits below NeverAssign). -/
structure InDatacenterFitness where
  proxyFit : Nat
  resolverFit : Nat
  proxyCount : Nat
  resolverCount : Nat
  deriving DecidableEq, Repr

def InDatacenterFitness.default : InDatacenterFitness :=
  ⟨neverAssign, neverAssign, 0, 0⟩

/- operator< of InDatacenterFitness: max fit ascending, then min fit
   ascending, then proxyCount descending, then resolverCount descending. -/
def InDatacenterFitness.ltB (l r : InDatacenterFitness) : Bool :=
  let lmax := max l.resolverFit l.proxyFit
  let lmin := min l.resolverFit l.proxyFit
  let rmax := max r.resolverFit r.proxyFit
  let rmin := min r.resolverFit r.proxyFit
  if lmax ≠ rmax then decide (lmax < rmax)
  else if lmin ≠ rmin then decide (lmin < rmin)
  else if l.proxyCount ≠ r.proxyCount then decide (l.proxyCount > r.proxyCount)
  else decide (l.resolverCount > r.resolverCount)

/- operator== of InDatacenterFitness: all four components equal. -/
def InDatacenterFitness.eqB (l r : InDatacenterFitness) : Bool :=
  l.proxyFit == r.proxyFit && l.resolverFit == r.resolverFit &&
    l.proxyCount == r.proxyCount && l.resolverCount == r.resolverCount

/- Equality of the key the comparator actually inspects:
   (max fit, min fit, proxyCount, resolverCount). -/
def InDatacenterFitness.keyEqB (l r : InDatacenterFitness) : Bool :=
  max l.resolverFit l.proxyFit == max r.resolverFit r.proxyFit &&
    min l.resolverFit l.proxyFit == min r.resolverFit r.proxyFit &&
    l.proxyCount == r.proxyCount && l.resolverCount == r.resolverCount

/- AcrossDatacenterFitness (tlogFit, tlogCount). -/
structure AcrossDatacenterFitness where
  tlogFit : Nat
  tlogCount : Nat
  deriving DecidableEq, Repr

/- operator< of AcrossDatacenterFitness: tlogFit ascending, then
   tlogCount descending. -/
def AcrossDatacenterFitness.ltB (l r : AcrossDatacenterFitness) : Bool :=
  if l.tlogFit ≠ r.tlogFit then decide (l.tlogFit < r.tlogFit)
  else decide (l.tlogCount > r.tlogCount)

/- operator== of AcrossDatacenterFitness: both components equal. -/
def AcrossDatacenterFitness.eqB (l r : AcrossDatacenterFitness) : Bool :=
  l.tlogFit == r.tlogFit && l.tlogCount == r.tlogCount

/- FailureStatusInfo of the failure detection server. The status is the
   failed bit of FailureStatus; a default-constructed FailureStatus has
   failed = true. Request times are modelled as Nat ticks. -/
structure FailureStatusInfo where
  failed : Bool
  lastRequestTime : Nat
  penultimateRequestTime : Nat
  deriving DecidableEq, Repr

def FailureStatusInfo.default : FailureStatusInfo := ⟨true, 0, 0⟩

/- The currentStatus std::map, address to FailureStatusInfo, as an
   association list with at most one entry per key. -/
abbrev StatusMap := List (Nat × FailureStatusInfo)

def csLookup (m : StatusMap) (a : Nat) : Option FailureStatusInfo :=
  (m.find? (fun e => e.1 == a)).map Prod.snd

/- Write through operator[]: replace the entry in place when the key is
   present, append it otherwise. -/
def csSet (m : StatusMap) (a : Nat) (v : FailureStatusInfo) : StatusMap :=
  if (m.find? (fun e => e.1 == a)).isSome then
    m.map (fun e => if e.1 == a then (a, v) else e)
  else m ++ [(a, v)]

def csErase (m : StatusMap) (a : Nat) : StatusMap :=
  m.filter (fun e => e.1 != a)

/- State of failureDetectionServer: currentVersion, currentStatus and
   statusHistory (a deque of SystemFailureStatus = (address, failed)). -/
structure FDState where
  currentVersion : Int
  currentStatus : StatusMap
  statusHistory : List (Nat × Bool)
  deriving DecidableEq, Repr

def fdInit : FDState := ⟨0, [], []⟩

/- The trimming loop: while statusHistory.size() > currentStatus.size(),
   pop_front; equivalently drop the excess from the front. -/
def fdTrim (s : FDState) : FDState :=
  { s with statusHistory :=
      s.statusHistory.drop (s.statusHistory.length - s.currentStatus.length) }

/- The sender-status update performed on a FailureMonitoringRequest:
   operator[] default-inserts, insertRequest moves the request times,
   and when the reported status differs from the stored one a change
   record is pushed, the version is bumped, the stored status is either
   erased (an explicit failed report, unreachable by assertion) or
   overwritten, and the history is trimmed. -/
def fdUpdate (s : FDState) (addr : Nat) (senderStatus : Option Bool) (nowT : Nat) : FDState :=
  match senderStatus with
  | none => s
  | some newStat =>
    let stat := (csLookup s.currentStatus addr).getD FailureStatusInfo.default
    let stat2 : FailureStatusInfo :=
      { stat with penultimateRequestTime := stat.lastRequestTime, lastRequestTime := nowT }
    let cs1 := csSet s.currentStatus addr stat2
    if newStat ≠ stat.failed then
      let hist := s.statusHistory ++ [(addr, newStat)]
      if newStat = true then
        fdTrim ⟨s.currentVersion + 1, csErase cs1 addr, hist⟩
      else
        fdTrim ⟨s.currentVersion + 1, csSet cs1 addr { stat2 with failed := newStat }, hist⟩
    else
      { s with currentStatus := cs1 }

/- FailureMonitoringReply (version, allOthersFailed, changes); the two
   knob-derived interval fields are constants and are omitted. -/
structure FailureMonitoringReply where
  failureInformationVersion : Int
  allOthersFailed : Bool
  changes : List (Nat × Bool)
  deriving DecidableEq, Repr

/- The delta-compressed reply of failureDetectionServer, computed from
   the post-update state and the request's failureInformationVersion. -/
def fdBuildReply (s : FDState) (reqVersion : Int) : Except CCError FailureMonitoringReply :=
  if reqVersion > s.currentVersion then .error .futureVersion
  else if reqVersion < s.currentVersion - (s.statusHistory.length : Int) ∨ reqVersion = 0 then
    .ok ⟨s.currentVersion, true, s.currentStatus.map (fun e => (e.1, e.2.failed))⟩
  else
    .ok ⟨s.currentVersion, false,
      s.statusHistory.drop (reqVersion - s.currentVersion + (s.statusHistory.length : Int)).toNat⟩

/- One periodic sweep: for each address present at the start of the
   sweep that the adaptive timeout rule elects to evict (the rule itself
   depends on real-valued latencies and the local address, so it is a
   parameter), push a failed record, bump the version, erase the entry
   and trim. -/
def fdSweepGo (evict : Nat → Bool) : List Nat → FDState → FDState
  | [], s => s
  | a :: rest, s =>
    if evict a then
      fdSweepGo evict rest
        (fdTrim ⟨s.currentVersion + 1, csErase s.currentStatus a, s.statusHistory ++ [(a, true)]⟩)
    else fdSweepGo evict rest s

def fdSweep (evict : Nat → Bool) (s : FDState) : FDState :=
  fdSweepGo evict (s.currentStatus.map Prod.fst) s

/- Invariants of the failure detection server claimed by the spec:
   currentVersion dominates the history length, and the history never
   exceeds the status map. -/
def fdInv (s : FDState) : Prop :=
  (s.statusHistory.length : Int) ≤ s.currentVersion ∧
    s.statusHistory.length ≤ s.currentStatus.length

/- States of failureDetectionServer at its observable points: the
   initial state, and closure under request processing and periodic
   sweeps. -/
inductive FDReachable : FDState → Prop where
  | init : FDReachable fdInit
  | request (s : FDState) (addr : Nat) (senderStatus : Option Bool) (nowT : Nat) :
      FDReachable s → FDReachable (fdUpdate s addr senderStatus nowT)
  | sweep (s : FDState) (evict : Nat → Bool) :
      FDReachable s → FDReachable (fdSweep evict s)

/- MasterInterface: only its id is inspected here. -/
structure MasterInterface where
  mid : Nat
  deriving DecidableEq, Repr

/- ClientDBInfo: id, proxies and the client transaction knobs. Proxy
   interfaces and the sample rate are carried opaquely as numbers. -/
structure ClientDBInfo where
  id : Nat
  proxies : List Nat
  clientTxnInfoSampleRate : Nat
  clientTxnInfoSizeLimit : Int
  deriving DecidableEq, Repr

/- ServerDBInfo: the fields the cluster controller reads or writes.
   logSystemConfig is carried opaquely; its isEqual is equality of the
   opaque value. -/
structure ServerDBInfo where
  id : Nat
  master : MasterInterface
  recoveryState : Nat
  priorCommittedLogServers : List Nat
  logSystemConfig : Nat
  resolvers : List Nat
  recoveryCount : Nat
  client : ClientDBInfo
  deriving DecidableEq, Repr

/- Events a long poll can observe while waiting: the async var changes
   to a new value, or the jittered 300 s timer fires. -/
inductive ServerPollEvent where
  | change (v : ServerDBInfo)
  | timerFired
  deriving DecidableEq, Repr

inductive ClientPollEvent where
  | change (v : ClientDBInfo)
  | timerFired
  deriving DecidableEq, Repr

/- Wait loop of clusterGetServerInfo: while the current id equals the
   caller's known id, wait for a change or break when the jittered
   timer fires; on exit reply with the then-current value. none models
   a wait that has not returned within the supplied events. -/
def clusterGetServerInfoWait (known : Nat) : ServerDBInfo → List ServerPollEvent → Option ServerDBInfo
  | cur, [] => if cur.id ≠ known then some cur else none
  | cur, e :: rest =>
    if cur.id ≠ known then some cur
    else
      match e with
      | ServerPollEvent.change v => clusterGetServerInfoWait known v rest
      | ServerPollEvent.timerFired => some cur

/- Wait loop of clusterOpenDatabase, identical in structure over
   ClientDBInfo. -/
def clusterOpenDatabaseWait (known : Nat) : ClientDBInfo → List ClientPollEvent → Option ClientDBInfo
  | cur, [] => if cur.id ≠ known then some cur else none
  | cur, e :: rest =>
    if cur.id ≠ known then some cur
    else
      match e with
      | ClientPollEvent.change v => clusterOpenDatabaseWait known v rest
      | ClientPollEvent.timerFired => some cur

/- RegisterWorkerRequest: interface, reported class, generation and the
   reply promise (an opaque token). -/
structure RegisterWorkerRequest where
  wi : Worker
  processClass : ProcessClass
  generation : Int
  reply : Nat
  deriving DecidableEq, Repr

/- The worker registry id_worker and the KV override map id_class, as
   association lists with at most one entry per key. -/
abbrev WorkerRegistry := List (Option Nat × WorkerInfo)
abbrev ClassMap := List (Option Nat × ProcessClass)

def regLookup (r : WorkerRegistry) (pid : Option Nat) : Option WorkerInfo :=
  (r.find? (fun e => e.1 == pid)).map Prod.snd

def regSet (r : WorkerRegistry) (pid : Option Nat) (v : WorkerInfo) : WorkerRegistry :=
  if (r.find? (fun e => e.1 == pid)).isSome then
    r.map (fun e => if e.1 == pid then (pid, v) else e)
  else r ++ [(pid, v)]

def classLookup (m : ClassMap) (pid : Option Nat) : Option ProcessClass :=
  (m.find? (fun e => e.1 == pid)).map Prod.snd

/- Outcome of registerWorker: the new registry, the reply promises
   completed with Never, and whether checkOutstandingRequests ran. -/
structure RegisterOutcome where
  registry : WorkerRegistry
  neverSent : List Nat
  checkedOutstanding : Bool
  deriving DecidableEq, Repr

/- registerWorker: install an unseen worker (applying the KV class
   override when its source is DB or the reported class is Unset, and
   spawning a fresh availability watcher), replace a seen registration
   when the interface id differs or the generation is not older
   (updating the class subject to source priority, resetting
   initialClass, completing the old reply with Never, storing the new
   reply and generation, and replacing interface and watcher only when
   the interface id changed), and ignore stale generations. -/
def registerWorker (req : RegisterWorkerRequest) (id_class : ClassMap)
    (freshWatcher : Nat) (id_worker : WorkerRegistry) : RegisterOutcome :=
  let pid := req.wi.locality.processId
  match regLookup id_worker pid with
  | none =>
    let processClass :=
      match classLookup id_class pid with
      | some c =>
        if c.classSource = ClassSource.db ∨ req.processClass.classType = ClassType.unset then c
        else req.processClass
      | none => req.processClass
    ⟨regSet id_worker pid ⟨freshWatcher, req.reply, req.generation, 0, req.wi,
        req.processClass, processClass⟩, [], true⟩
  | some old =>
    if old.interf.wid ≠ req.wi.wid ∨ req.generation ≥ old.gen then
      let newClass :=
        if old.processClass.classSource = ClassSource.commandLine ∨
            (old.processClass.classSource = ClassSource.auto ∧
              req.processClass.classType ≠ ClassType.unset) then
          req.processClass
        else old.processClass
      ⟨regSet id_worker pid
          ⟨if old.interf.wid ≠ req.wi.wid then freshWatcher else old.watcher,
            req.reply, req.generation, old.reboots,
            if old.interf.wid ≠ req.wi.wid then req.wi else old.interf,
            req.processClass, newClass⟩,
        [old.reply], false⟩
    else ⟨id_worker, [], false⟩

/- RegisterMasterRequest: the fields clusterRegisterMaster consumes.
   mid is the request's master UID (req.id). -/
structure RegisterMasterRequest where
  mid : Nat
  mi : MasterInterface
  logSystemConfig : Nat
  resolvers : List Nat
  proxies : List Nat
  recoveryState : Nat
  recoveryCount : Nat
  registrationCount : Int
  configuration : Nat
  priorCommittedLogServers : List Nat
  deriving DecidableEq, Repr

/- The DBInfo state clusterRegisterMaster touches. -/
structure MasterDBState where
  serverInfo : ServerDBInfo
  clientInfo : ClientDBInfo
  masterRegistrationCount : Int
  config : Nat
  deriving DecidableEq, Repr

/- The six conditional field updates of clusterRegisterMaster, one per
   if-block of the handler; each returns the updated ServerDBInfo copy
   and its isChanged contribution. -/
def rmUpdRecoveryState (d : ServerDBInfo) (v : Nat) : ServerDBInfo × Bool :=
  if d.recoveryState ≠ v then ({ d with recoveryState := v }, true) else (d, false)

def rmUpdPrior (d : ServerDBInfo) (v : List Nat) : ServerDBInfo × Bool :=
  if d.priorCommittedLogServers ≠ v then
    ({ d with priorCommittedLogServers := v }, true)
  else (d, false)

/- The proxies block: when the proxies changed, build a new ClientDBInfo
   with the fresh client id, publish it, and copy it into the
   ServerDBInfo copy. Returns (dbInfo, clientInfo, published, changed). -/
def rmUpdClient (d : ServerDBInfo) (oldClient : ClientDBInfo) (proxies : List Nat)
    (freshClientId : Nat) : ServerDBInfo × ClientDBInfo × Option ClientDBInfo × Bool :=
  if oldClient.proxies ≠ proxies then
    let newClient : ClientDBInfo :=
      ⟨freshClientId, proxies, oldClient.clientTxnInfoSampleRate,
        oldClient.clientTxnInfoSizeLimit⟩
    ({ d with client := newClient }, newClient, some newClient, true)
  else (d, oldClient, none, false)

def rmUpdLogSystemConfig (d : ServerDBInfo) (v : Nat) : ServerDBInfo × Bool :=
  if d.logSystemConfig ≠ v then ({ d with logSystemConfig := v }, true) else (d, false)

def rmUpdResolvers (d : ServerDBInfo) (v : List Nat) : ServerDBInfo × Bool :=
  if d.resolvers ≠ v then ({ d with resolvers := v }, true) else (d, false)

def rmUpdRecoveryCount (d : ServerDBInfo) (v : Nat) : ServerDBInfo × Bool :=
  if d.recoveryCount ≠ v then ({ d with recoveryCount := v }, true) else (d, false)

/- clusterRegisterMaster: reject unless the request id matches the
   current master and the registration count strictly advances; then
   fold each field into a copy of serverInfo tracking isChanged, set a
   new ClientDBInfo (with the fresh client id) when the proxies
   changed, and re-set serverInfo with the fresh server id iff
   isChanged. Returns the new state, the published ServerDBInfo (if
   any) and the published ClientDBInfo (if any). -/
def clusterRegisterMaster (st : MasterDBState) (req : RegisterMasterRequest)
    (freshClientId freshServerId : Nat) :
    MasterDBState × Option ServerDBInfo × Option ClientDBInfo :=
  if st.serverInfo.master.mid ≠ req.mid ∨ req.registrationCount ≤ st.masterRegistrationCount then
    (st, none, none)
  else
    let q1 := rmUpdRecoveryState st.serverInfo req.recoveryState
    let q2 := rmUpdPrior q1.1 req.priorCommittedLogServers
    let q3 := rmUpdClient q2.1 st.clientInfo req.proxies freshClientId
    let q4 := rmUpdLogSystemConfig q3.1 req.logSystemConfig
    let q5 := rmUpdResolvers q4.1 req.resolvers
    let q6 := rmUpdRecoveryCount q5.1 req.recoveryCount
    let isChanged := q1.2 || q2.2 || q3.2.2.2 || q4.2 || q5.2 || q6.2
    if isChanged then
      let published := { q6.1 with id := freshServerId }
      ({ st with
          serverInfo := published,
          clientInfo := q3.2.1,
          masterRegistrationCount := req.registrationCount,
          config := req.configuration },
        some published, q3.2.2.1)
    else
      ({ st with
          clientInfo := q3.2.1,
          masterRegistrationCount := req.registrationCount,
          config := req.configuration },
        none, q3.2.2.1)

/- DatabaseConfiguration: the fields the recruitment engine reads.
   Modelled from the spec: DatabaseConfiguration itself is outside this
   repository slice; desiredLogs, desiredProxies and desiredResolvers
   stand for getDesiredLogs() etc., isExcludedServer is membership of
   the worker address in excludedAddresses, and tLogPolicy is the
   opaque policy predicate over the localities of a candidate set. -/
structure DatabaseConfiguration where
  tLogReplicationFactor : Nat
  desiredLogs : Nat
  desiredProxies : Nat
  desiredResolvers : Nat
  excludedAddresses : List Nat
  tLogPolicy : List Locality → Bool

def localitiesOf (ws : List WorkerInfo) : List Locality :=
  ws.map (fun w => w.interf.locality)

/- Worker eligibility for tlog recruitment (available, not excluded,
   fitness for TLog below NeverAssign). machineClassFitness is the
   fixed fitness table, taken as the parameter mcf. -/
def tlogEligible (mcf : ProcessClass → ClusterRole → Nat) (avail : Worker → Bool)
    (conf : DatabaseConfiguration) (checkStable : Bool) (w : WorkerInfo) : Bool :=
  workerAvailable avail w checkStable &&
    !(conf.excludedAddresses.contains w.interf.addr) &&
    mcf w.processClass ClusterRole.tlogRole != neverAssign

/- The fitness_workers tier for one fitness value, in registry order. -/
def fitnessTier (mcf : ProcessClass → ClusterRole → Nat) (avail : Worker → Bool)
    (conf : DatabaseConfiguration) (checkStable : Bool) (workers : List WorkerInfo)
    (fit : Nat) : List WorkerInfo :=
  workers.filter (fun w => tlogEligible mcf avail conf checkStable w &&
    (mcf w.processClass ClusterRole.tlogRole == fit))

/- The tier loop of getWorkersForTlogsAcrossDatacenters, iterating the
   fitness values from BestFit up to (excluding) NeverAssign while
   accumulating the tiers into the log server set: skip an absent tier;
   below the replication factor keep accumulating; within desiredLogs
   return the whole set if the policy validates it; above desiredLogs
   ask findBestPolicySet (the parameter fbps) for a best subset. -/
def gwftLoop (conf : DatabaseConfiguration)
    (fbps : List WorkerInfo → (List Locality → Bool) → Nat → Option (List WorkerInfo))
    (tiers : Nat → List WorkerInfo) :
    List Nat → List WorkerInfo → Except CCError (List WorkerInfo)
  | [], _ => .error .noMoreServers
  | fit :: rest, acc =>
    if tiers fit = [] then gwftLoop conf fbps tiers rest acc
    else if (acc ++ tiers fit).length < conf.tLogReplicationFactor then
      gwftLoop conf fbps tiers rest (acc ++ tiers fit)
    else if (acc ++ tiers fit).length ≤ conf.desiredLogs then
      if conf.tLogPolicy (localitiesOf (acc ++ tiers fit)) then .ok (acc ++ tiers fit)
      else gwftLoop conf fbps tiers rest (acc ++ tiers fit)
    else
      match fbps (acc ++ tiers fit) conf.tLogPolicy conf.desiredLogs with
      | some best => .ok best
      | none => gwftLoop conf fbps tiers rest (acc ++ tiers fit)

/- getWorkersForTlogsAcrossDatacenters: run the tier loop over the
   fitness values BestFit..WorstFit starting from the empty set; a
   failed search throws no_more_servers. The id_used increments for the
   chosen workers are applied by the caller (tlogsBumpUsed). -/
def getWorkersForTlogsAcrossDatacenters (mcf : ProcessClass → ClusterRole → Nat)
    (avail : Worker → Bool)
    (fbps : List WorkerInfo → (List Locality → Bool) → Nat → Option (List WorkerInfo))
    (id_worker : WorkerRegistry) (conf : DatabaseConfiguration) (checkStable : Bool) :
    Except CCError (List WorkerInfo) :=
  gwftLoop conf fbps (fitnessTier mcf avail conf checkStable (id_worker.map Prod.snd))
    [0, 1, 2, 3] []

/- The per-process use counters id_used, with operator[] defaulting
   to 0. -/
abbrev IdUsed := Option Nat → Nat

def bumpUsed (u : IdUsed) (pid : Option Nat) : IdUsed :=
  fun k => if k = pid then u k + 1 else u k

/- The id_used[result.locality.processId]++ loop run after a
   successful tlog recruitment. -/
def tlogsBumpUsed (results : List WorkerInfo) (id_used : IdUsed) : IdUsed :=
  results.foldl (fun u w => bumpUsed u w.interf.locality.processId) id_used

/- WorkerFitnessInfo: a chosen worker together with the (fitness, used)
   key of its group. -/
structure WorkerFitnessInfo where
  worker : Worker × ProcessClass
  fitness : Nat
  used : Nat
  deriving DecidableEq, Repr

/- The ascending lexicographic order on the (fitness, used) keys of the
   fitness_workers std::map. -/
def keyLe (a b : Nat × Nat) : Bool :=
  a.1 < b.1 || (a.1 == b.1 && a.2 ≤ b.2)

def insertSorted (le : Nat × Nat → Nat × Nat → Bool) (x : Nat × Nat) :
    List (Nat × Nat) → List (Nat × Nat)
  | [] => [x]
  | y :: ys => if le x y then x :: y :: ys else y :: insertSorted le x ys

def sortKeys (l : List (Nat × Nat)) : List (Nat × Nat) :=
  l.foldr (insertSorted keyLe) []

/- The grouping key of a registry entry: (fitness for the role, its
   current id_used count, read at the registry key as the code does). -/
def entKey (mcf : ProcessClass → ClusterRole → Nat) (role : ClusterRole) (id_used : IdUsed)
    (ent : Option Nat × WorkerInfo) : Nat × Nat :=
  (mcf ent.2.processClass role, id_used ent.1)

/- Candidates laid out in the iteration order of the fitness_workers
   map: keys ascending, each group passed through the random shuffle
   (a parameter). -/
def groupedCandidates (mcf : ProcessClass → ClusterRole → Nat) (role : ClusterRole)
    (id_used : IdUsed)
    (shuffle : List (Option Nat × WorkerInfo) → List (Option Nat × WorkerInfo))
    (cands : List (Option Nat × WorkerInfo)) : List (Option Nat × WorkerInfo) :=
  ((sortKeys ((cands.map (entKey mcf role id_used)).dedup)).map
    (fun k => shuffle (cands.filter (fun e => entKey mcf role id_used e == k)))).flatten

/- The filter of getWorkersForRoleInDatacenter (the n-ary variant):
   available, not excluded, not minWorker's interface, no worse than
   minWorker by (fitness, used) with ties in used allowed, and in the
   requested datacenter. -/
def roleFilter (mcf : ProcessClass → ClusterRole → Nat) (avail : Worker → Bool)
    (conf : DatabaseConfiguration) (checkStable : Bool) (role : ClusterRole)
    (dcId : Option Nat) (id_used : IdUsed) (minW : WorkerFitnessInfo)
    (ent : Option Nat × WorkerInfo) : Bool :=
  workerAvailable avail ent.2 checkStable &&
    !(conf.excludedAddresses.contains ent.2.interf.addr) &&
    ent.2.interf.wid != minW.worker.1.wid &&
    (mcf ent.2.processClass role < minW.fitness ||
      (mcf ent.2.processClass role == minW.fitness && id_used ent.1 ≤ minW.used)) &&
    (ent.2.interf.locality.dcId == dcId)

/- The picking loop: push workers in group order, bumping id_used,
   until amount workers are collected. -/
def pickLoop (amount : Nat) : List (Option Nat × WorkerInfo) →
    List (Worker × ProcessClass) × IdUsed → List (Worker × ProcessClass) × IdUsed
  | [], st => st
  | e :: rest, (acc, used) =>
    if (acc ++ [(e.2.interf, e.2.processClass)]).length = amount then
      (acc ++ [(e.2.interf, e.2.processClass)],
        bumpUsed used e.2.interf.locality.processId)
    else
      pickLoop amount rest (acc ++ [(e.2.interf, e.2.processClass)],
        bumpUsed used e.2.interf.locality.processId)

/- getWorkersForRoleInDatacenter (dc, role, amount, conf, used,
   minWorker): empty for amount ≤ 0, otherwise up to amount workers
   from the sorted shuffled groups of the filtered candidates. -/
def getWorkersForRoleInDatacenter (mcf : ProcessClass → ClusterRole → Nat)
    (avail : Worker → Bool)
    (shuffle : List (Option Nat × WorkerInfo) → List (Option Nat × WorkerInfo))
    (dcId : Option Nat) (role : ClusterRole) (amount : Int) (conf : DatabaseConfiguration)
    (id_used : IdUsed) (minW : WorkerFitnessInfo) (id_worker : WorkerRegistry)
    (checkStable : Bool) : List (Worker × ProcessClass) × IdUsed :=
  if amount ≤ 0 then ([], id_used)
  else
    pickLoop amount.toNat
      (groupedCandidates mcf role id_used shuffle
        (id_worker.filter (roleFilter mcf avail conf checkStable role dcId id_used minW)))
      ([], id_used)

/- Eligibility filter of getWorkerForRoleInDatacenter (the single-pick
   variant): available, not excluded, fitness below NeverAssign. -/
def singleEligible (mcf : ProcessClass → ClusterRole → Nat) (avail : Worker → Bool)
    (conf : DatabaseConfiguration) (checkStable : Bool) (role : ClusterRole)
    (ent : Option Nat × WorkerInfo) : Bool :=
  workerAvailable avail ent.2 checkStable &&
    !(conf.excludedAddresses.contains ent.2.interf.addr) &&
    mcf ent.2.processClass role != neverAssign

/- getWorkerForRoleInDatacenter: pick the first worker of the sorted
   shuffled groups among candidates in the requested datacenter; if
   none, retry over the other datacenters; otherwise no_more_servers.
   The picked worker's id_used counter is bumped. -/
def getWorkerForRoleInDatacenter (mcf : ProcessClass → ClusterRole → Nat)
    (avail : Worker → Bool)
    (shuffle : List (Option Nat × WorkerInfo) → List (Option Nat × WorkerInfo))
    (dcId : Option Nat) (role : ClusterRole) (conf : DatabaseConfiguration)
    (id_used : IdUsed) (id_worker : WorkerRegistry) (checkStable : Bool) :
    Except CCError (WorkerFitnessInfo × IdUsed) :=
  match groupedCandidates mcf role id_used shuffle
      (id_worker.filter (fun e => singleEligible mcf avail conf checkStable role e &&
        (e.2.interf.locality.dcId == dcId))) with
  | e :: _ =>
    .ok (⟨(e.2.interf, e.2.processClass), mcf e.2.processClass role, id_used e.1⟩,
      bumpUsed id_used e.2.interf.locality.processId)
  | [] =>
    match groupedCandidates mcf role id_used shuffle
        (id_worker.filter (fun e => singleEligible mcf avail conf checkStable role e &&
          (e.2.interf.locality.dcId != dcId))) with
    | e :: _ =>
      .ok (⟨(e.2.interf, e.2.processClass), mcf e.2.processClass role, id_used e.1⟩,
        bumpUsed id_used e.2.interf.locality.processId)
    | [] => .error .noMoreServers

/- RecruitStorageRequest. -/
structure RecruitStorageRequest where
  excludeMachines : List (Option Nat)
  excludeDCs : List (Option Nat)
  excludeAddresses : List Nat
  criticalRecruitment : Bool
  reply : Nat
  deriving DecidableEq, Repr

/- The storage-recruit exclusion and availability filter. -/
def storageEligible (avail : Worker → Bool) (req : RecruitStorageRequest)
    (w : WorkerInfo) : Bool :=
  workerAvailable avail w false &&
    !(req.excludeMachines.contains w.interf.locality.zoneId) &&
    !(req.excludeDCs.contains w.interf.locality.dcId) &&
    !(req.excludeAddresses.contains w.interf.addr)

/- The critical-recruitment pass: scan for the strictly best fitness
   below NeverAssign among eligible workers. -/
def storageBestGo (mcf : ProcessClass → ClusterRole → Nat) (avail : Worker → Bool)
    (req : RecruitStorageRequest) :
    List (Option Nat × WorkerInfo) → Nat → Option (Worker × ProcessClass) →
    Option (Worker × ProcessClass)
  | [], _, best => best
  | e :: rest, bestFitV, best =>
    if storageEligible avail req e.2 &&
        (mcf e.2.processClass ClusterRole.storageRole < bestFitV) then
      storageBestGo mcf avail req rest (mcf e.2.processClass ClusterRole.storageRole)
        (some (e.2.interf, e.2.processClass))
    else storageBestGo mcf avail req rest bestFitV best

/- getStorageWorker: any eligible worker of storage fitness at most
   UnsetFit; else, for critical recruitment, the best eligible worker
   below NeverAssign; else no_more_servers. -/
def getStorageWorker (mcf : ProcessClass → ClusterRole → Nat) (avail : Worker → Bool)
    (id_worker : WorkerRegistry) (req : RecruitStorageRequest) :
    Except CCError (Worker × ProcessClass) :=
  match id_worker.find? (fun e => storageEligible avail req e.2 &&
      (mcf e.2.processClass ClusterRole.storageRole ≤ unsetFit)) with
  | some e => .ok (e.2.interf, e.2.processClass)
  | none =>
    if req.criticalRecruitment then
      match storageBestGo mcf avail req id_worker neverAssign none with
      | some w => .ok w
      | none => .error .noMoreServers
    else .error .noMoreServers

/- Observable outcome of clusterRecruitStorage: a reply with a worker,
   or the request parked on the outstanding queue with its deadline. -/
inductive StorageOutcome where
  | replied (w : Worker × ProcessClass)
  | enqueued (reply : Nat) (deadline : Nat)
  deriving DecidableEq, Repr

/- clusterRecruitStorage: before process classes are loaded, a
   non-critical request is treated as no_more_servers and parked with
   deadline now + RECRUITMENT_TIMEOUT; otherwise getStorageWorker
   answers, and its no_more_servers also parks the request. -/
def clusterRecruitStorage (mcf : ProcessClass → ClusterRole → Nat) (avail : Worker → Bool)
    (gotProcessClasses : Bool) (id_worker : WorkerRegistry) (req : RecruitStorageRequest)
    (nowT recruitmentTimeout : Nat) : StorageOutcome :=
  if !gotProcessClasses && !req.criticalRecruitment then
    StorageOutcome.enqueued req.reply (nowT + recruitmentTimeout)
  else
    match getStorageWorker mcf avail id_worker req with
    | .ok w => StorageOutcome.replied w
    | .error _ => StorageOutcome.enqueued req.reply (nowT + recruitmentTimeout)

/- getDatacenters: the dcIds of the available, non-excluded workers. -/
def getDatacenters (avail : Worker → Bool) (conf : DatabaseConfiguration)
    (checkStable : Bool) (id_worker : WorkerRegistry) : List (Option Nat) :=
  ((id_worker.filter (fun e => workerAvailable avail e.2 checkStable &&
      !(conf.excludedAddresses.contains e.2.interf.addr))).map
    (fun e => e.2.interf.locality.dcId)).dedup

/- AcrossDatacenterFitness built from a recruited tlog set. -/
def acrossFitnessOf (mcf : ProcessClass → ClusterRole → Nat) (tlogs : List WorkerInfo) :
    AcrossDatacenterFitness :=
  ⟨tlogs.foldl (fun m w => max m (mcf w.processClass ClusterRole.tlogRole)) bestFit,
    tlogs.length⟩

/- InDatacenterFitness built from proxy and resolver sets. -/
def inDCFitnessOf (mcf : ProcessClass → ClusterRole → Nat)
    (proxies resolvers : List (Worker × ProcessClass)) : InDatacenterFitness :=
  ⟨proxies.foldl (fun m p => max m (mcf p.2 ClusterRole.proxyRole)) bestFit,
    resolvers.foldl (fun m p => max m (mcf p.2 ClusterRole.resolverRole)) bestFit,
    proxies.length, resolvers.length⟩

/- Running best of the datacenter loop of findWorkersForConfiguration. -/
structure DCBest where
  fitness : InDatacenterFitness
  numEquivalent : Nat
  proxies : List (Worker × ProcessClass)
  resolvers : List (Worker × ProcessClass)
  deriving DecidableEq, Repr

/- The datacenter loop: per datacenter, recruit a first resolver and a
   first proxy on a copy of id_used, then desired-1 further proxies and
   resolvers relative to those firsts, score with InDatacenterFitness,
   and keep the best; ties are resolved by the reservoir-sampling
   oracle tie applied to the incremented tie count. -/
def dcLoop (mcf : ProcessClass → ClusterRole → Nat) (avail : Worker → Bool)
    (shuffle : List (Option Nat × WorkerInfo) → List (Option Nat × WorkerInfo))
    (tie : Nat → Bool) (conf : DatabaseConfiguration) (id_worker : WorkerRegistry)
    (id_used : IdUsed) : List (Option Nat) → DCBest → Except CCError DCBest
  | [], best => .ok best
  | dcId :: rest, best =>
    match getWorkerForRoleInDatacenter mcf avail shuffle dcId ClusterRole.resolverRole
        conf id_used id_worker false with
    | .error e => .error e
    | .ok (first_resolver, used1) =>
      match getWorkerForRoleInDatacenter mcf avail shuffle dcId ClusterRole.proxyRole
          conf used1 id_worker false with
      | .error e => .error e
      | .ok (first_proxy, used2) =>
        let pr := getWorkersForRoleInDatacenter mcf avail shuffle dcId ClusterRole.proxyRole
          ((conf.desiredProxies : Int) - 1) conf used2 first_proxy id_worker false
        let rr := getWorkersForRoleInDatacenter mcf avail shuffle dcId ClusterRole.resolverRole
          ((conf.desiredResolvers : Int) - 1) conf pr.2 first_resolver id_worker false
        let fitness := inDCFitnessOf mcf (pr.1 ++ [first_proxy.worker]) (rr.1 ++ [first_resolver.worker])
        if fitness.ltB best.fitness then
          dcLoop mcf avail shuffle tie conf id_worker id_used rest
            ⟨fitness, 1, pr.1 ++ [first_proxy.worker], rr.1 ++ [first_resolver.worker]⟩
        else if fitness.eqB best.fitness && tie (best.numEquivalent + 1) then
          dcLoop mcf avail shuffle tie conf id_worker id_used rest
            ⟨best.fitness, best.numEquivalent + 1,
              pr.1 ++ [first_proxy.worker], rr.1 ++ [first_resolver.worker]⟩
        else if fitness.eqB best.fitness then
          dcLoop mcf avail shuffle tie conf id_worker id_used rest
            ⟨best.fitness, best.numEquivalent + 1, best.proxies, best.resolvers⟩
        else
          dcLoop mcf avail shuffle tie conf id_worker id_used rest best

/- RecruitFromConfigurationReply. -/
structure RecruitFromConfigurationReply where
  tLogs : List Worker
  proxies : List Worker
  resolvers : List Worker
  deriving DecidableEq, Repr

/- The placement phase of findWorkersForConfiguration: reserve a use
   count for the master process, recruit the tlogs, bump their use
   counts, and run the datacenter loop over getDatacenters; the ASSERT
   that some datacenter produced a fitness is internal_error. -/
def findWorkersPlacement (mcf : ProcessClass → ClusterRole → Nat) (avail : Worker → Bool)
    (fbps : List WorkerInfo → (List Locality → Bool) → Nat → Option (List WorkerInfo))
    (shuffle : List (Option Nat × WorkerInfo) → List (Option Nat × WorkerInfo))
    (tie : Nat → Bool) (id_worker : WorkerRegistry) (conf : DatabaseConfiguration)
    (masterProcessId : Option Nat) :
    Except CCError
      (List WorkerInfo × InDatacenterFitness ×
        List (Worker × ProcessClass) × List (Worker × ProcessClass)) :=
  match getWorkersForTlogsAcrossDatacenters mcf avail fbps id_worker conf false with
  | .error e => .error e
  | .ok tlogs =>
    match dcLoop mcf avail shuffle tie conf id_worker
        (tlogsBumpUsed tlogs (bumpUsed (fun _ => 0) masterProcessId))
        (getDatacenters avail conf false id_worker)
        ⟨InDatacenterFitness.default, 1, [], []⟩ with
    | .error e => .error e
    | .ok best =>
      if best.fitness.eqB InDatacenterFitness.default then .error .internalError
      else .ok (tlogs, best.fitness, best.proxies, best.resolvers)

/- findWorkersForConfiguration: after a completed placement, fail with
   operation_failed inside the startup grace window when the tlog set
   is worse than (EXPECTED_TLOG_FITNESS, desiredLogs) or the best
   datacenter is worse than (EXPECTED_PROXY_FITNESS,
   EXPECTED_RESOLVER_FITNESS, desiredProxies, desiredResolvers);
   otherwise return the recruited interfaces. -/
def findWorkersForConfiguration (mcf : ProcessClass → ClusterRole → Nat)
    (avail : Worker → Bool)
    (fbps : List WorkerInfo → (List Locality → Bool) → Nat → Option (List WorkerInfo))
    (shuffle : List (Option Nat × WorkerInfo) → List (Option Nat × WorkerInfo))
    (tie : Nat → Bool) (id_worker : WorkerRegistry) (conf : DatabaseConfiguration)
    (masterProcessId : Option Nat) (elapsed waitForGoodDelay : Nat)
    (expectedTlogFit expectedProxyFit expectedResolverFit : Nat) :
    Except CCError RecruitFromConfigurationReply :=
  match findWorkersPlacement mcf avail fbps shuffle tie id_worker conf masterProcessId with
  | .error e => .error e
  | .ok (tlogs, bestFitness, proxies, resolvers) =>
    if elapsed < waitForGoodDelay ∧
        (AcrossDatacenterFitness.ltB ⟨expectedTlogFit, conf.desiredLogs⟩
            (acrossFitnessOf mcf tlogs) = true ∨
          InDatacenterFitness.ltB
            ⟨expectedProxyFit, expectedResolverFit, conf.desiredProxies, conf.desiredResolvers⟩
            bestFitness = true) then
      .error .operationFailed
    else
      .ok ⟨tlogs.map (fun w => w.interf), proxies.map Prod.fst, resolvers.map Prod.fst⟩

end CCModel

namespace CCModel

/-- C8: the claim as stated fails. With a = (proxyFit Best, resolverFit
Good, 1, 1) and b = (proxyFit Good, resolverFit Best, 1, 1), neither
a < b nor b < a holds (the comparator only sees max and min of the two
fits, which agree) yet a == b is false, so it is not the case that
exactly one of the three holds. -/
theorem C8_total_order_counterexample :
    ¬ (let a : InDatacenterFitness := ⟨bestFit, goodFit, 1, 1⟩
       let b : InDatacenterFitness := ⟨goodFit, bestFit, 1, 1⟩
       (a.ltB b = true ∨ b.ltB a = true ∨ a.eqB b = true) ∧
         ¬(a.ltB b = true ∧ b.ltB a = true) ∧
         ¬(a.ltB b = true ∧ a.eqB b = true) ∧
         ¬(b.ltB a = true ∧ a.eqB b = true)) := by
  decide

/-- C8 (amended): AcrossDatacenterFitness is trichotomous exactly as
claimed (exactly one of x < y, y < x, x == y). For InDatacenterFitness,
exactly one of a < b, b < a, or equality of the compared key
(max(proxyFit, resolverFit), min(proxyFit, resolverFit), proxyCount,
resolverCount) holds; operator== (all four fields equal) implies key
equality but not conversely, so == is strictly finer than the
comparator's incomparability. -/
theorem C8_comparators_amended :
    (∀ a b : InDatacenterFitness,
      ((a.ltB b = true ∨ b.ltB a = true ∨ a.keyEqB b = true) ∧
        ¬(a.ltB b = true ∧ b.ltB a = true) ∧
        ¬(a.ltB b = true ∧ a.keyEqB b = true) ∧
        ¬(b.ltB a = true ∧ a.keyEqB b = true)) ∧
      (a.eqB b = true → a.keyEqB b = true)) ∧
    (∀ x y : AcrossDatacenterFitness,
      (x.ltB y = true ∨ y.ltB x = true ∨ x.eqB y = true) ∧
        ¬(x.ltB y = true ∧ y.ltB x = true) ∧
        ¬(x.ltB y = true ∧ x.eqB y = true) ∧
        ¬(y.ltB x = true ∧ x.eqB y = true)) := by
  have hlt : ∀ l r : InDatacenterFitness, l.ltB r = true ↔
      (max l.resolverFit l.proxyFit < max r.resolverFit r.proxyFit ∨
        (max l.resolverFit l.proxyFit = max r.resolverFit r.proxyFit ∧
          min l.resolverFit l.proxyFit < min r.resolverFit r.proxyFit) ∨
        (max l.resolverFit l.proxyFit = max r.resolverFit r.proxyFit ∧
          min l.resolverFit l.proxyFit = min r.resolverFit r.proxyFit ∧
          l.proxyCount > r.proxyCount) ∨
        (max l.resolverFit l.proxyFit = max r.resolverFit r.proxyFit ∧
          min l.resolverFit l.proxyFit = min r.resolverFit r.proxyFit ∧
          l.proxyCount = r.proxyCount ∧ l.resolverCount > r.resolverCount)) := by
    intro l r
    simp only [InDatacenterFitness.ltB]
    split_ifs <;> simp_all
  have halt : ∀ x y : AcrossDatacenterFitness, x.ltB y = true ↔
      (x.tlogFit < y.tlogFit ∨ (x.tlogFit = y.tlogFit ∧ x.tlogCount > y.tlogCount)) := by
    intro x y
    simp only [AcrossDatacenterFitness.ltB]
    split_ifs <;> simp_all
  constructor
  · intro a b
    simp only [hlt, InDatacenterFitness.eqB, InDatacenterFitness.keyEqB,
      Bool.and_eq_true, beq_iff_eq]
    constructor
    · generalize max a.resolverFit a.proxyFit = am
      generalize max b.resolverFit b.proxyFit = bm
      generalize min a.resolverFit a.proxyFit = an
      generalize min b.resolverFit b.proxyFit = bn
      omega
    · intro h
      obtain ⟨⟨⟨h1, h2⟩, h3⟩, h4⟩ := h
      simp [h1, h2, h3, h4]
  · intro x y
    simp only [halt, AcrossDatacenterFitness.eqB, Bool.and_eq_true, beq_iff_eq]
    omega

theorem csSet_length_ge (m : StatusMap) (a : Nat) (v : FailureStatusInfo) :
    m.length ≤ (csSet m a v).length := by
  unfold csSet
  split
  · simp
  · simp

theorem fdTrim_inv (v : Int) (cs : StatusMap) (h : List (Nat × Bool))
    (hv : (h.length : Int) ≤ v) : fdInv (fdTrim ⟨v, cs, h⟩) := by
  unfold fdInv fdTrim
  simp only [List.length_drop]
  constructor
  · omega
  · omega

theorem fdUpdate_inv (s : FDState) (addr : Nat) (st : Option Bool) (nowT : Nat)
    (h : fdInv s) : fdInv (fdUpdate s addr st nowT) := by
  obtain ⟨h1, h2⟩ := h
  unfold fdUpdate
  cases st with
  | none => exact ⟨h1, h2⟩
  | some newStat =>
    simp only
    split
    · split
      · exact fdTrim_inv _ _ _ (by simp; omega)
      · exact fdTrim_inv _ _ _ (by simp; omega)
    · refine ⟨h1, le_trans h2 ?_⟩
      exact csSet_length_ge _ _ _

theorem fdSweepGo_inv (evict : Nat → Bool) (l : List Nat) (s : FDState)
    (h : fdInv s) : fdInv (fdSweepGo evict l s) := by
  induction l generalizing s with
  | nil => exact h
  | cons a rest ih =>
    obtain ⟨h1, h2⟩ := h
    unfold fdSweepGo
    split
    · exact ih _ (fdTrim_inv _ _ _ (by simp; omega))
    · exact ih _ ⟨h1, h2⟩

/-- C4: at every observable point of the failure detection server (the
initial state and after each request and each periodic sweep), the
current version is at least the length of statusHistory, and
statusHistory is no longer than currentStatus. -/
theorem C4_failure_detector_invariants (s : FDState) (h : FDReachable s) :
    (s.statusHistory.length : Int) ≤ s.currentVersion ∧
      s.statusHistory.length ≤ s.currentStatus.length := by
  induction h with
  | init => exact ⟨by simp [fdInit], by simp [fdInit]⟩
  | request s addr st nowT _ ih => exact fdUpdate_inv s addr st nowT ih
  | sweep s evict _ ih => exact fdSweepGo_inv evict _ s ih

/-- C4 witness: the invariants hold at the concrete state reached from
the initial state by one request from address 3 reporting OK. -/
theorem C4_failure_detector_invariants_witness :
    ((fdUpdate fdInit 3 (some false) 10).statusHistory.length : Int) ≤
        (fdUpdate fdInit 3 (some false) 10).currentVersion ∧
      (fdUpdate fdInit 3 (some false) 10).statusHistory.length ≤
        (fdUpdate fdInit 3 (some false) 10).currentStatus.length :=
  C4_failure_detector_invariants _ (FDReachable.request fdInit 3 (some false) 10 FDReachable.init)

/-- C2: for a request whose failureInformationVersion is at most the
server's current version V, the reply is the full currentStatus with
allOthersFailed when reqVersion is 0 or lies below V minus the history
length, and otherwise it is exactly the suffix of statusHistory starting
at index reqVersion - V + |statusHistory|; in both cases the reply
carries failureInformationVersion = V. -/
theorem C2_failure_monitoring_reply (s : FDState) (reqVersion : Int)
    (hle : reqVersion ≤ s.currentVersion) :
    (reqVersion = 0 ∨ reqVersion < s.currentVersion - (s.statusHistory.length : Int) →
      fdBuildReply s reqVersion =
        .ok ⟨s.currentVersion, true, s.currentStatus.map (fun e => (e.1, e.2.failed))⟩) ∧
    (reqVersion ≠ 0 → s.currentVersion - (s.statusHistory.length : Int) ≤ reqVersion →
      fdBuildReply s reqVersion =
        .ok ⟨s.currentVersion, false,
          s.statusHistory.drop
            (reqVersion - s.currentVersion + (s.statusHistory.length : Int)).toNat⟩) := by
  unfold fdBuildReply
  constructor
  · intro h
    rw [if_neg (by omega), if_pos (by tauto)]
  · intro h1 h2
    rw [if_neg (by omega), if_neg (by omega)]

/-- C2 witness: with V = 2, one tracked address 5 and a one-element
history, version 0 receives the full map and version 2 receives the
empty suffix of the history. -/
theorem C2_failure_monitoring_reply_witness :
    fdBuildReply ⟨2, [(5, ⟨true, 0, 0⟩)], [(5, true)]⟩ 0 =
      .ok ⟨2, true, [(5, true)]⟩ ∧
    fdBuildReply ⟨2, [(5, ⟨true, 0, 0⟩)], [(5, true)]⟩ 2 =
      .ok ⟨2, false, []⟩ := by
  constructor
  · exact (C2_failure_monitoring_reply ⟨2, [(5, ⟨true, 0, 0⟩)], [(5, true)]⟩ 0
      (by decide)).1 (Or.inl rfl)
  · exact (C2_failure_monitoring_reply ⟨2, [(5, ⟨true, 0, 0⟩)], [(5, true)]⟩ 2
      (by decide)).2 (by decide) (by decide)


/-- C5: the claim fails on the timeout path. When the jittered 300 s
timer fires while the caller's known id is still current, the wait
loop breaks and the reply repeats the known id: with knownServerInfoID
7 and a current ServerDBInfo of id 7 (resp. knownClientInfoID 9 and a
ClientDBInfo of id 9), the reply's id equals the caller's known id, so
not every reply carries a distinct, newer id. -/
theorem C5_fresh_id_counterexample :
    (∃ r, clusterGetServerInfoWait 7 ⟨7, ⟨0⟩, 0, [], 0, [], 0, ⟨0, [], 0, 0⟩⟩
        [ServerPollEvent.timerFired] = some r ∧ r.id = 7) ∧
    (∃ r, clusterOpenDatabaseWait 9 ⟨9, [], 0, 0⟩
        [ClientPollEvent.timerFired] = some r ∧ r.id = 9) :=
  ⟨⟨⟨7, ⟨0⟩, 0, [], 0, [], 0, ⟨0, [], 0, 0⟩⟩, by decide, rfl⟩,
    ⟨⟨9, [], 0, 0⟩, by decide, rfl⟩⟩

/-- C5 (amended): every reply carries the then-current value, and if
the reply is produced without the jittered 300 s timer having fired
during the wait, its id differs from the caller's known id; only after
a timer break may the reply repeat the known id (ids are opaque random
tokens, so no order between them is claimed). -/
theorem C5_fresh_id_amended :
    (∀ (known : Nat) (cur : ServerDBInfo) (evs : List ServerPollEvent) (r : ServerDBInfo),
      ServerPollEvent.timerFired ∉ evs →
      clusterGetServerInfoWait known cur evs = some r → r.id ≠ known) ∧
    (∀ (known : Nat) (cur : ClientDBInfo) (evs : List ClientPollEvent) (r : ClientDBInfo),
      ClientPollEvent.timerFired ∉ evs →
      clusterOpenDatabaseWait known cur evs = some r → r.id ≠ known) := by
  constructor
  · intro known cur evs
    induction evs generalizing cur with
    | nil =>
      intro r _ hr
      unfold clusterGetServerInfoWait at hr
      split at hr
      · cases hr
        assumption
      · cases hr
    | cons e rest ih =>
      intro r hmem hr
      unfold clusterGetServerInfoWait at hr
      split at hr
      · cases hr
        assumption
      · cases e with
        | change v => exact ih v r (fun hm => hmem (List.mem_cons_of_mem _ hm)) hr
        | timerFired => exact absurd (List.mem_cons_self _ _) hmem
  · intro known cur evs
    induction evs generalizing cur with
    | nil =>
      intro r _ hr
      unfold clusterOpenDatabaseWait at hr
      split at hr
      · cases hr
        assumption
      · cases hr
    | cons e rest ih =>
      intro r hmem hr
      unfold clusterOpenDatabaseWait at hr
      split at hr
      · cases hr
        assumption
      · cases e with
        | change v => exact ih v r (fun hm => hmem (List.mem_cons_of_mem _ hm)) hr
        | timerFired => exact absurd (List.mem_cons_self _ _) hmem

/-- C5 witness: with no events pending and a current value whose id (2,
resp. 4) already differs from the known id (1, resp. 3), the replies
carry ids distinct from the callers' known ids. -/
theorem C5_fresh_id_amended_witness :
    (⟨2, ⟨0⟩, 0, [], 0, [], 0, ⟨0, [], 0, 0⟩⟩ : ServerDBInfo).id ≠ 1 ∧
      (⟨4, [], 0, 0⟩ : ClientDBInfo).id ≠ 3 :=
  ⟨C5_fresh_id_amended.1 1 ⟨2, ⟨0⟩, 0, [], 0, [], 0, ⟨0, [], 0, 0⟩⟩ []
      ⟨2, ⟨0⟩, 0, [], 0, [], 0, ⟨0, [], 0, 0⟩⟩ (List.not_mem_nil _) (by decide),
    C5_fresh_id_amended.2 3 ⟨4, [], 0, 0⟩ [] ⟨4, [], 0, 0⟩ (List.not_mem_nil _) (by decide)⟩

/-- C3: for a RegisterWorker request whose processId is already
registered, if the interface id differs or the generation is at least
the stored one, the stored entry is replaced: the class is updated only
when the stored source is CommandLine, or Auto with a non-Unset report;
initialClass becomes the reported class; the old reply is completed
with Never; the new reply and generation are stored; and the interface
and availability watcher are replaced exactly when the interface id
changed. Otherwise (same interface id, strictly smaller generation)
nothing changes. -/
theorem C3_register_worker_seen (req : RegisterWorkerRequest) (id_class : ClassMap)
    (freshWatcher : Nat) (id_worker : WorkerRegistry) (old : WorkerInfo)
    (hseen : regLookup id_worker req.wi.locality.processId = some old) :
    (old.interf.wid ≠ req.wi.wid ∨ req.generation ≥ old.gen →
      registerWorker req id_class freshWatcher id_worker =
        ⟨regSet id_worker req.wi.locality.processId
            ⟨if old.interf.wid ≠ req.wi.wid then freshWatcher else old.watcher,
              req.reply, req.generation, old.reboots,
              if old.interf.wid ≠ req.wi.wid then req.wi else old.interf,
              req.processClass,
              if old.processClass.classSource = ClassSource.commandLine ∨
                  (old.processClass.classSource = ClassSource.auto ∧
                    req.processClass.classType ≠ ClassType.unset) then req.processClass
              else old.processClass⟩,
          [old.reply], false⟩) ∧
    (old.interf.wid = req.wi.wid → req.generation < old.gen →
      registerWorker req id_class freshWatcher id_worker = ⟨id_worker, [], false⟩) := by
  constructor
  · intro hcond
    simp only [registerWorker, hseen]
    rw [if_pos hcond]
  · intro heq hlt
    simp only [registerWorker, hseen]
    rw [if_neg (by push_neg; exact ⟨heq, by omega⟩)]

/-- C3 witness: a re-registration of worker 10 with the same interface
id and a newer generation replaces the stored entry, keeps the watcher,
completes the old reply 44 with Never and stores reply 77; a stale
generation is ignored. -/
theorem C3_register_worker_seen_witness :
    registerWorker ⟨⟨10, 1, ⟨some 1, some 1, none, some 0⟩⟩,
        ⟨ClassType.tlog, ClassSource.commandLine⟩, 5, 77⟩ [] 99
      [(some 1, ⟨3, 44, 2, 0, ⟨10, 1, ⟨some 1, some 1, none, some 0⟩⟩,
        ⟨ClassType.storage, ClassSource.commandLine⟩,
        ⟨ClassType.storage, ClassSource.commandLine⟩⟩)] =
      ⟨[(some 1, ⟨3, 77, 5, 0, ⟨10, 1, ⟨some 1, some 1, none, some 0⟩⟩,
        ⟨ClassType.tlog, ClassSource.commandLine⟩,
        ⟨ClassType.tlog, ClassSource.commandLine⟩⟩)], [44], false⟩ ∧
    registerWorker ⟨⟨10, 1, ⟨some 1, some 1, none, some 0⟩⟩,
        ⟨ClassType.tlog, ClassSource.commandLine⟩, 1, 78⟩ [] 99
      [(some 1, ⟨3, 44, 2, 0, ⟨10, 1, ⟨some 1, some 1, none, some 0⟩⟩,
        ⟨ClassType.storage, ClassSource.commandLine⟩,
        ⟨ClassType.storage, ClassSource.commandLine⟩⟩)] =
      ⟨[(some 1, ⟨3, 44, 2, 0, ⟨10, 1, ⟨some 1, some 1, none, some 0⟩⟩,
        ⟨ClassType.storage, ClassSource.commandLine⟩,
        ⟨ClassType.storage, ClassSource.commandLine⟩⟩)], [], false⟩ := by
  constructor
  · exact (C3_register_worker_seen
      ⟨⟨10, 1, ⟨some 1, some 1, none, some 0⟩⟩,
        ⟨ClassType.tlog, ClassSource.commandLine⟩, 5, 77⟩ [] 99
      [(some 1, ⟨3, 44, 2, 0, ⟨10, 1, ⟨some 1, some 1, none, some 0⟩⟩,
        ⟨ClassType.storage, ClassSource.commandLine⟩,
        ⟨ClassType.storage, ClassSource.commandLine⟩⟩)]
      ⟨3, 44, 2, 0, ⟨10, 1, ⟨some 1, some 1, none, some 0⟩⟩,
        ⟨ClassType.storage, ClassSource.commandLine⟩,
        ⟨ClassType.storage, ClassSource.commandLine⟩⟩ rfl).1 (Or.inr (by decide))
  · exact (C3_register_worker_seen
      ⟨⟨10, 1, ⟨some 1, some 1, none, some 0⟩⟩,
        ⟨ClassType.tlog, ClassSource.commandLine⟩, 1, 78⟩ [] 99
      [(some 1, ⟨3, 44, 2, 0, ⟨10, 1, ⟨some 1, some 1, none, some 0⟩⟩,
        ⟨ClassType.storage, ClassSource.commandLine⟩,
        ⟨ClassType.storage, ClassSource.commandLine⟩⟩)]
      ⟨3, 44, 2, 0, ⟨10, 1, ⟨some 1, some 1, none, some 0⟩⟩,
        ⟨ClassType.storage, ClassSource.commandLine⟩,
        ⟨ClassType.storage, ClassSource.commandLine⟩⟩ rfl).2 rfl (by decide)

/-- C9: for an accepted RegisterMaster request (matching master id and
strictly advancing registration count), a new ServerDBInfo with the
fresh id is published iff at least one of recoveryState,
priorCommittedLogServers, proxies, logSystemConfig, resolvers or
recoveryCount differs from the previously published value; when none
differ, serverInfo is not re-set and keeps its id. -/
theorem C9_register_master_publish (st : MasterDBState) (req : RegisterMasterRequest)
    (freshClientId freshServerId : Nat)
    (haccept : st.serverInfo.master.mid = req.mid ∧
      st.masterRegistrationCount < req.registrationCount)
    (hfresh : freshServerId ≠ st.serverInfo.id) :
    ((st.serverInfo.recoveryState ≠ req.recoveryState ∨
      st.serverInfo.priorCommittedLogServers ≠ req.priorCommittedLogServers ∨
      st.clientInfo.proxies ≠ req.proxies ∨
      st.serverInfo.logSystemConfig ≠ req.logSystemConfig ∨
      st.serverInfo.resolvers ≠ req.resolvers ∨
      st.serverInfo.recoveryCount ≠ req.recoveryCount) →
      (clusterRegisterMaster st req freshClientId freshServerId).2.1 =
          some ((clusterRegisterMaster st req freshClientId freshServerId).1.serverInfo) ∧
        (clusterRegisterMaster st req freshClientId freshServerId).1.serverInfo.id =
          freshServerId ∧
        (clusterRegisterMaster st req freshClientId freshServerId).1.serverInfo.id ≠
          st.serverInfo.id) ∧
    ((st.serverInfo.recoveryState = req.recoveryState ∧
      st.serverInfo.priorCommittedLogServers = req.priorCommittedLogServers ∧
      st.clientInfo.proxies = req.proxies ∧
      st.serverInfo.logSystemConfig = req.logSystemConfig ∧
      st.serverInfo.resolvers = req.resolvers ∧
      st.serverInfo.recoveryCount = req.recoveryCount) →
      (clusterRegisterMaster st req freshClientId freshServerId).2.1 = none ∧
      (clusterRegisterMaster st req freshClientId freshServerId).1.serverInfo =
        st.serverInfo) := by
  obtain ⟨hid, hcnt⟩ := haccept
  have hrej : ¬(st.serverInfo.master.mid ≠ req.mid ∨
      req.registrationCount ≤ st.masterRegistrationCount) := by
    push_neg
    exact ⟨hid, by omega⟩
  constructor
  · intro hch
    by_cases e1 : st.serverInfo.recoveryState = req.recoveryState <;>
    by_cases e2 : st.serverInfo.priorCommittedLogServers = req.priorCommittedLogServers <;>
    by_cases e3 : st.clientInfo.proxies = req.proxies <;>
    by_cases e4 : st.serverInfo.logSystemConfig = req.logSystemConfig <;>
    by_cases e5 : st.serverInfo.resolvers = req.resolvers <;>
    by_cases e6 : st.serverInfo.recoveryCount = req.recoveryCount <;>
    simp_all [clusterRegisterMaster, rmUpdRecoveryState, rmUpdPrior, rmUpdClient,
      rmUpdLogSystemConfig, rmUpdResolvers, rmUpdRecoveryCount, hrej, hfresh,
      (show ¬req.registrationCount ≤ st.masterRegistrationCount by omega)]
  · intro hsame
    obtain ⟨e1, e2, e3, e4, e5, e6⟩ := hsame
    refine ⟨?_, ?_⟩ <;>
      simp [clusterRegisterMaster, rmUpdRecoveryState, rmUpdPrior, rmUpdClient,
        rmUpdLogSystemConfig, rmUpdResolvers, rmUpdRecoveryCount, hrej, hid,
        e1, e2, e3, e4, e5, e6,
        (show ¬req.registrationCount ≤ st.masterRegistrationCount by omega)]

/-- C9 witness: with master id 5 matching, registration count advancing
from 0 to 1 and recoveryState changing from 0 to 1, the handler
publishes its new serverInfo, whose id is the fresh id 9, distinct
from the previous id 1. -/
theorem C9_register_master_publish_witness :
    (clusterRegisterMaster
        ⟨⟨1, ⟨5⟩, 0, [], 0, [], 0, ⟨2, [], 0, 0⟩⟩, ⟨2, [], 0, 0⟩, 0, 0⟩
        ⟨5, ⟨5⟩, 0, [], [], 1, 0, 1, 0, []⟩ 8 9).2.1 =
        some ((clusterRegisterMaster
          ⟨⟨1, ⟨5⟩, 0, [], 0, [], 0, ⟨2, [], 0, 0⟩⟩, ⟨2, [], 0, 0⟩, 0, 0⟩
          ⟨5, ⟨5⟩, 0, [], [], 1, 0, 1, 0, []⟩ 8 9).1.serverInfo) ∧
      (clusterRegisterMaster
        ⟨⟨1, ⟨5⟩, 0, [], 0, [], 0, ⟨2, [], 0, 0⟩⟩, ⟨2, [], 0, 0⟩, 0, 0⟩
        ⟨5, ⟨5⟩, 0, [], [], 1, 0, 1, 0, []⟩ 8 9).1.serverInfo.id = 9 ∧
      (clusterRegisterMaster
        ⟨⟨1, ⟨5⟩, 0, [], 0, [], 0, ⟨2, [], 0, 0⟩⟩, ⟨2, [], 0, 0⟩, 0, 0⟩
        ⟨5, ⟨5⟩, 0, [], [], 1, 0, 1, 0, []⟩ 8 9).1.serverInfo.id ≠
        (⟨⟨1, ⟨5⟩, 0, [], 0, [], 0, ⟨2, [], 0, 0⟩⟩,
          ⟨2, [], 0, 0⟩, 0, 0⟩ : MasterDBState).serverInfo.id :=
  (C9_register_master_publish
    ⟨⟨1, ⟨5⟩, 0, [], 0, [], 0, ⟨2, [], 0, 0⟩⟩, ⟨2, [], 0, 0⟩, 0, 0⟩
    ⟨5, ⟨5⟩, 0, [], [], 1, 0, 1, 0, []⟩ 8 9 ⟨rfl, by decide⟩ (by decide)).1
    (Or.inl (by decide))


theorem gwftLoop_spec (conf : DatabaseConfiguration)
    (fbps : List WorkerInfo → (List Locality → Bool) → Nat → Option (List WorkerInfo))
    (tiers : Nat → List WorkerInfo)
    (hfbps : ∀ s p d r, fbps s p d = some r → p (localitiesOf r) = true ∧ r.length = d)
    (hconf : conf.tLogReplicationFactor ≤ conf.desiredLogs) :
    ∀ (fits : List Nat) (acc : List WorkerInfo),
      (∀ S, gwftLoop conf fbps tiers fits acc = .ok S →
        conf.tLogPolicy (localitiesOf S) = true ∧
        conf.tLogReplicationFactor ≤ S.length ∧ S.length ≤ conf.desiredLogs) ∧
      (∀ e, gwftLoop conf fbps tiers fits acc = .error e → e = CCError.noMoreServers) := by
  intro fits
  induction fits with
  | nil =>
    intro acc
    constructor
    · intro S h
      simp [gwftLoop] at h
    · intro e h
      simp [gwftLoop] at h
      exact h.symm
  | cons fit rest ih =>
    intro acc
    have hstep : ∀ r, gwftLoop conf fbps tiers (fit :: rest) acc = r →
        (∀ S, r = .ok S →
          conf.tLogPolicy (localitiesOf S) = true ∧
          conf.tLogReplicationFactor ≤ S.length ∧ S.length ≤ conf.desiredLogs) ∧
        (∀ e, r = .error e → e = CCError.noMoreServers) := by
      intro r h
      unfold gwftLoop at h
      by_cases h0 : tiers fit = []
      · rw [if_pos h0] at h
        rw [← h]
        exact ih acc
      · rw [if_neg h0] at h
        by_cases h1 : (acc ++ tiers fit).length < conf.tLogReplicationFactor
        · rw [if_pos h1] at h
          rw [← h]
          exact ih _
        · by_cases h2 : (acc ++ tiers fit).length ≤ conf.desiredLogs
          · by_cases h3 : conf.tLogPolicy (localitiesOf (acc ++ tiers fit)) = true
            · rw [if_neg h1, if_pos h2, if_pos h3] at h
              rw [← h]
              constructor
              · intro S hS
                cases hS
                exact ⟨h3, by omega, h2⟩
              · intro e he
                cases he
            · rw [if_neg h1, if_pos h2, if_neg h3] at h
              rw [← h]
              exact ih _
          · rw [if_neg h1, if_neg h2] at h
            cases hm : fbps (acc ++ tiers fit) conf.tLogPolicy conf.desiredLogs with
            | some best =>
              rw [hm] at h
              rw [← h]
              constructor
              · intro S hS
                cases hS
                obtain ⟨hp, hl⟩ := hfbps _ _ _ _ hm
                exact ⟨hp, by omega, by omega⟩
              · intro e he
                cases he
            | none =>
              rw [hm] at h
              rw [← h]
              exact ih _
    exact hstep _ rfl

/-- C1: whenever getWorkersForTlogsAcrossDatacenters returns a set S,
the tlog replication policy validates the localities of S and
tLogReplicationFactor ≤ |S| ≤ getDesiredLogs(); when no fitness tier
yields such a set the call throws no_more_servers (the only error it
produces). findBestPolicySet is modelled from the spec through the
hypothesis that a successful search returns a policy-satisfying subset
of exactly the desired size. -/
theorem C1_tlog_recruitment (mcf : ProcessClass → ClusterRole → Nat)
    (avail : Worker → Bool)
    (fbps : List WorkerInfo → (List Locality → Bool) → Nat → Option (List WorkerInfo))
    (id_worker : WorkerRegistry) (conf : DatabaseConfiguration) (checkStable : Bool)
    (hfbps : ∀ s p d r, fbps s p d = some r → p (localitiesOf r) = true ∧ r.length = d)
    (hconf : conf.tLogReplicationFactor ≤ conf.desiredLogs) :
    (∀ S, getWorkersForTlogsAcrossDatacenters mcf avail fbps id_worker conf checkStable =
        .ok S →
      conf.tLogPolicy (localitiesOf S) = true ∧
      conf.tLogReplicationFactor ≤ S.length ∧ S.length ≤ conf.desiredLogs) ∧
    (∀ e, getWorkersForTlogsAcrossDatacenters mcf avail fbps id_worker conf checkStable =
        .error e → e = CCError.noMoreServers) := by
  unfold getWorkersForTlogsAcrossDatacenters
  exact gwftLoop_spec conf fbps _ hfbps hconf [0, 1, 2, 3] []

/-- C1 witness: two unset-class workers, replication factor 1, desired
2, a policy that accepts anything: the returned set satisfies the
policy and the size bounds. -/
theorem C1_tlog_recruitment_witness :
    (⟨1, 2, 1, 1, [], fun _ => true⟩ : DatabaseConfiguration).tLogPolicy
        (localitiesOf
          [⟨0, 0, 0, 0, ⟨1, 1, ⟨some 1, some 1, none, some 0⟩⟩,
              ⟨ClassType.unset, ClassSource.unsetSrc⟩, ⟨ClassType.unset, ClassSource.unsetSrc⟩⟩,
            ⟨0, 0, 0, 0, ⟨2, 2, ⟨some 2, some 2, none, some 0⟩⟩,
              ⟨ClassType.unset, ClassSource.unsetSrc⟩, ⟨ClassType.unset, ClassSource.unsetSrc⟩⟩]) =
        true ∧
      (⟨1, 2, 1, 1, [], fun _ => true⟩ : DatabaseConfiguration).tLogReplicationFactor ≤ 2 ∧
      (2 : Nat) ≤ (⟨1, 2, 1, 1, [], fun _ => true⟩ : DatabaseConfiguration).desiredLogs :=
  (C1_tlog_recruitment (fun _ _ => 0) (fun _ => true) (fun _ _ _ => none)
    [(some 1, ⟨0, 0, 0, 0, ⟨1, 1, ⟨some 1, some 1, none, some 0⟩⟩,
        ⟨ClassType.unset, ClassSource.unsetSrc⟩, ⟨ClassType.unset, ClassSource.unsetSrc⟩⟩),
      (some 2, ⟨0, 0, 0, 0, ⟨2, 2, ⟨some 2, some 2, none, some 0⟩⟩,
        ⟨ClassType.unset, ClassSource.unsetSrc⟩, ⟨ClassType.unset, ClassSource.unsetSrc⟩⟩)]
    ⟨1, 2, 1, 1, [], fun _ => true⟩ false
    (fun _ _ _ r h => Option.noConfusion h) (by decide)).1
    [⟨0, 0, 0, 0, ⟨1, 1, ⟨some 1, some 1, none, some 0⟩⟩,
        ⟨ClassType.unset, ClassSource.unsetSrc⟩, ⟨ClassType.unset, ClassSource.unsetSrc⟩⟩,
      ⟨0, 0, 0, 0, ⟨2, 2, ⟨some 2, some 2, none, some 0⟩⟩,
        ⟨ClassType.unset, ClassSource.unsetSrc⟩, ⟨ClassType.unset, ClassSource.unsetSrc⟩⟩]
    rfl


theorem pickLoop_mem (n : Nat) :
    ∀ (l : List (Option Nat × WorkerInfo)) (acc : List (Worker × ProcessClass)) (u : IdUsed)
      (x : Worker × ProcessClass), x ∈ (pickLoop n l (acc, u)).1 →
      x ∈ acc ∨ ∃ e ∈ l, x = (e.2.interf, e.2.processClass) := by
  intro l
  induction l with
  | nil =>
    intro acc u x hx
    exact Or.inl hx
  | cons e rest ih =>
    intro acc u x hx
    simp only [pickLoop] at hx
    by_cases hl : (acc ++ [(e.2.interf, e.2.processClass)]).length = n
    · rw [if_pos hl] at hx
      rcases List.mem_append.mp hx with h | h
      · exact Or.inl h
      · exact Or.inr ⟨e, List.mem_cons_self _ _, by simpa using h⟩
    · rw [if_neg hl] at hx
      rcases ih _ _ x hx with h | ⟨e', he', hx'⟩
      · rcases List.mem_append.mp h with h2 | h2
        · exact Or.inl h2
        · exact Or.inr ⟨e, List.mem_cons_self _ _, by simpa using h2⟩
      · exact Or.inr ⟨e', List.mem_cons_of_mem _ he', hx'⟩

theorem pickLoop_length (n : Nat) :
    ∀ (l : List (Option Nat × WorkerInfo)) (acc : List (Worker × ProcessClass)) (u : IdUsed),
      acc.length < n → (pickLoop n l (acc, u)).1.length ≤ n := by
  intro l
  induction l with
  | nil =>
    intro acc u h
    exact le_of_lt h
  | cons e rest ih =>
    intro acc u h
    simp only [pickLoop]
    by_cases hl : (acc ++ [(e.2.interf, e.2.processClass)]).length = n
    · rw [if_pos hl]
      exact le_of_eq hl
    · rw [if_neg hl]
      apply ih
      simp only [List.length_append, List.length_singleton] at hl ⊢
      omega

theorem groupedCandidates_mem (mcf : ProcessClass → ClusterRole → Nat) (role : ClusterRole)
    (id_used : IdUsed)
    (shuffle : List (Option Nat × WorkerInfo) → List (Option Nat × WorkerInfo))
    (cands : List (Option Nat × WorkerInfo))
    (hsh : ∀ l x, x ∈ shuffle l → x ∈ l) :
    ∀ e ∈ groupedCandidates mcf role id_used shuffle cands, e ∈ cands := by
  intro e he
  unfold groupedCandidates at he
  rw [List.mem_flatten] at he
  obtain ⟨grp, hgrp, hein⟩ := he
  rw [List.mem_map] at hgrp
  obtain ⟨k, _, hk⟩ := hgrp
  rw [← hk] at hein
  exact (List.mem_filter.mp (hsh _ _ hein)).1

/-- C6: the claim as stated fails on the used-count tie-break. The
filter admits candidates of equal fitness and equal used count (the
comparison is id_used[w] <= minWorker.used, not <): with minWorker of
fitness 1 and used count 0, the distinct worker 2 of fitness 1 and used
count 0 is returned although it is not strictly better than minWorker
in the (fitness, used) lexicographic order. -/
theorem C6_strictly_better_counterexample :
    ¬ (∀ p ∈ (getWorkersForRoleInDatacenter (fun _ _ => 1) (fun _ => true) id (some 0)
          ClusterRole.proxyRole 1 ⟨1, 1, 1, 1, [], fun _ => true⟩ (fun _ => 0)
          ⟨(⟨1, 1, ⟨some 1, some 1, none, some 0⟩⟩, ⟨ClassType.unset, ClassSource.unsetSrc⟩), 1, 0⟩
          [(some 2, ⟨0, 0, 0, 0, ⟨2, 2, ⟨some 2, some 2, none, some 0⟩⟩,
            ⟨ClassType.unset, ClassSource.unsetSrc⟩, ⟨ClassType.unset, ClassSource.unsetSrc⟩⟩)]
          false).1,
        p.1.wid ≠ 1 ∧
          ((fun (_ : ProcessClass) (_ : ClusterRole) => (1 : Nat)) p.2 ClusterRole.proxyRole < 1 ∨
            ((fun (_ : ProcessClass) (_ : ClusterRole) => (1 : Nat)) p.2 ClusterRole.proxyRole = 1 ∧
              (fun (_ : Option Nat) => (0 : Nat)) (some 2) < 0))) := by
  decide

/-- C6 (amended): every worker returned by getWorkersForRoleInDatacenter
comes from a registry entry that is distinct from minWorker's interface
and satisfies: smaller fitness than minWorker, or equal fitness and a
used count at most minWorker's (ties in the used count are admitted by
the filter); and the list has at most max(n, 0) elements. -/
theorem C6_role_workers_amended (mcf : ProcessClass → ClusterRole → Nat)
    (avail : Worker → Bool)
    (shuffle : List (Option Nat × WorkerInfo) → List (Option Nat × WorkerInfo))
    (dcId : Option Nat) (role : ClusterRole) (amount : Int) (conf : DatabaseConfiguration)
    (id_used : IdUsed) (minW : WorkerFitnessInfo) (id_worker : WorkerRegistry)
    (checkStable : Bool)
    (hsh : ∀ l x, x ∈ shuffle l → x ∈ l) :
    (∀ p ∈ (getWorkersForRoleInDatacenter mcf avail shuffle dcId role amount conf
        id_used minW id_worker checkStable).1,
      ∃ ent ∈ id_worker,
        p = (ent.2.interf, ent.2.processClass) ∧
        ent.2.interf.wid ≠ minW.worker.1.wid ∧
        (mcf ent.2.processClass role < minW.fitness ∨
          (mcf ent.2.processClass role = minW.fitness ∧ id_used ent.1 ≤ minW.used))) ∧
    (getWorkersForRoleInDatacenter mcf avail shuffle dcId role amount conf
        id_used minW id_worker checkStable).1.length ≤ amount.toNat := by
  constructor
  · intro p hp
    unfold getWorkersForRoleInDatacenter at hp
    by_cases ha : amount ≤ 0
    · rw [if_pos ha] at hp
      simp at hp
    · rw [if_neg ha] at hp
      rcases pickLoop_mem _ _ _ _ _ hp with h | ⟨e, he, hpe⟩
      · simp at h
      · have hc := groupedCandidates_mem mcf role id_used shuffle _ hsh e he
        rw [List.mem_filter] at hc
        obtain ⟨hmem, hfilt⟩ := hc
        simp only [roleFilter, Bool.and_eq_true, bne_iff_ne, beq_iff_eq,
          decide_eq_true_eq, Bool.or_eq_true] at hfilt
        exact ⟨e, hmem, hpe, hfilt.1.1.2, hfilt.1.2⟩
  · unfold getWorkersForRoleInDatacenter
    by_cases ha : amount ≤ 0
    · rw [if_pos ha]
      simp
    · rw [if_neg ha]
      apply pickLoop_length
      simp only [List.length_nil]
      omega

/-- C6 witness: with one candidate of equal fitness and smaller used
count than minWorker, the returned worker is distinct from minWorker,
no worse by (fitness, used), and the list has at most one element. -/
theorem C6_role_workers_amended_witness :
    (∀ p ∈ (getWorkersForRoleInDatacenter (fun _ _ => 1) (fun _ => true) id (some 0)
        ClusterRole.proxyRole 1 ⟨1, 1, 1, 1, [], fun _ => true⟩ (fun _ => 0)
        ⟨(⟨1, 1, ⟨some 1, some 1, none, some 0⟩⟩, ⟨ClassType.unset, ClassSource.unsetSrc⟩), 1, 0⟩
        [(some 2, ⟨0, 0, 0, 0, ⟨2, 2, ⟨some 2, some 2, none, some 0⟩⟩,
          ⟨ClassType.unset, ClassSource.unsetSrc⟩, ⟨ClassType.unset, ClassSource.unsetSrc⟩⟩)]
        false).1,
      ∃ ent ∈ [(some 2, (⟨0, 0, 0, 0, ⟨2, 2, ⟨some 2, some 2, none, some 0⟩⟩,
          ⟨ClassType.unset, ClassSource.unsetSrc⟩,
          ⟨ClassType.unset, ClassSource.unsetSrc⟩⟩ : WorkerInfo))],
        p = (ent.2.interf, ent.2.processClass) ∧
        ent.2.interf.wid ≠ 1 ∧
        ((fun (_ : ProcessClass) (_ : ClusterRole) => (1 : Nat)) ent.2.processClass
            ClusterRole.proxyRole < 1 ∨
          ((fun (_ : ProcessClass) (_ : ClusterRole) => (1 : Nat)) ent.2.processClass
              ClusterRole.proxyRole = 1 ∧ (fun (_ : Option Nat) => (0 : Nat)) ent.1 ≤ 0))) ∧
    (getWorkersForRoleInDatacenter (fun _ _ => 1) (fun _ => true) id (some 0)
        ClusterRole.proxyRole 1 ⟨1, 1, 1, 1, [], fun _ => true⟩ (fun _ => 0)
        ⟨(⟨1, 1, ⟨some 1, some 1, none, some 0⟩⟩, ⟨ClassType.unset, ClassSource.unsetSrc⟩), 1, 0⟩
        [(some 2, ⟨0, 0, 0, 0, ⟨2, 2, ⟨some 2, some 2, none, some 0⟩⟩,
          ⟨ClassType.unset, ClassSource.unsetSrc⟩, ⟨ClassType.unset, ClassSource.unsetSrc⟩⟩)]
        false).1.length ≤ (1 : Int).toNat :=
  C6_role_workers_amended (fun _ _ => 1) (fun _ => true) id (some 0)
    ClusterRole.proxyRole 1 ⟨1, 1, 1, 1, [], fun _ => true⟩ (fun _ => 0)
    ⟨(⟨1, 1, ⟨some 1, some 1, none, some 0⟩⟩, ⟨ClassType.unset, ClassSource.unsetSrc⟩), 1, 0⟩
    [(some 2, ⟨0, 0, 0, 0, ⟨2, 2, ⟨some 2, some 2, none, some 0⟩⟩,
      ⟨ClassType.unset, ClassSource.unsetSrc⟩, ⟨ClassType.unset, ClassSource.unsetSrc⟩⟩)]
    false (fun _ _ h => h)

/-- C10: while gotProcessClasses is false every non-critical
RecruitStorage request is parked on the outstanding-storage queue with
deadline now + RECRUITMENT_TIMEOUT and receives no worker, regardless
of the registry (in particular even when an available, non-excluded
worker of storage fitness at most UnsetFit exists); a critical request
bypasses the gate and is answered through getStorageWorker. -/
theorem C10_storage_recruit_gate (mcf : ProcessClass → ClusterRole → Nat)
    (avail : Worker → Bool) (gotPC : Bool) (id_worker : WorkerRegistry)
    (req : RecruitStorageRequest) (nowT rt : Nat) :
    (gotPC = false → req.criticalRecruitment = false →
      clusterRecruitStorage mcf avail gotPC id_worker req nowT rt =
        StorageOutcome.enqueued req.reply (nowT + rt)) ∧
    (req.criticalRecruitment = true →
      clusterRecruitStorage mcf avail gotPC id_worker req nowT rt =
        match getStorageWorker mcf avail id_worker req with
        | .ok w => StorageOutcome.replied w
        | .error _ => StorageOutcome.enqueued req.reply (nowT + rt)) := by
  constructor
  · intro h1 h2
    simp [clusterRecruitStorage, h1, h2]
  · intro h
    simp [clusterRecruitStorage, h]

/-- C10 witness: with process classes not yet loaded and an available
storage-fit worker 1 registered, the non-critical request 55 is parked
with deadline 107 and gets no worker, while the critical request 56 is
served that worker. -/
theorem C10_storage_recruit_gate_witness :
    clusterRecruitStorage (fun _ _ => 0) (fun _ => true) false
        [(some 1, ⟨0, 0, 0, 0, ⟨1, 1, ⟨some 1, some 1, none, some 0⟩⟩,
          ⟨ClassType.storage, ClassSource.commandLine⟩,
          ⟨ClassType.storage, ClassSource.commandLine⟩⟩)]
        ⟨[], [], [], false, 55⟩ 100 7 =
      StorageOutcome.enqueued 55 107 ∧
    clusterRecruitStorage (fun _ _ => 0) (fun _ => true) false
        [(some 1, ⟨0, 0, 0, 0, ⟨1, 1, ⟨some 1, some 1, none, some 0⟩⟩,
          ⟨ClassType.storage, ClassSource.commandLine⟩,
          ⟨ClassType.storage, ClassSource.commandLine⟩⟩)]
        ⟨[], [], [], true, 56⟩ 100 7 =
      StorageOutcome.replied (⟨1, 1, ⟨some 1, some 1, none, some 0⟩⟩,
        ⟨ClassType.storage, ClassSource.commandLine⟩) :=
  ⟨(C10_storage_recruit_gate (fun _ _ => 0) (fun _ => true) false
      [(some 1, ⟨0, 0, 0, 0, ⟨1, 1, ⟨some 1, some 1, none, some 0⟩⟩,
        ⟨ClassType.storage, ClassSource.commandLine⟩,
        ⟨ClassType.storage, ClassSource.commandLine⟩⟩)]
      ⟨[], [], [], false, 55⟩ 100 7).1 rfl rfl,
    (C10_storage_recruit_gate (fun _ _ => 0) (fun _ => true) false
      [(some 1, ⟨0, 0, 0, 0, ⟨1, 1, ⟨some 1, some 1, none, some 0⟩⟩,
        ⟨ClassType.storage, ClassSource.commandLine⟩,
        ⟨ClassType.storage, ClassSource.commandLine⟩⟩)]
      ⟨[], [], [], true, 56⟩ 100 7).2 rfl⟩


/-- C7: when findWorkersForConfiguration completes its placement (the
placement phase returns tlogs, a best datacenter fitness, proxies and
resolvers without throwing), it throws operation_failed if and only if
the elapsed time since startTime is below
WAIT_FOR_GOOD_RECRUITMENT_DELAY and either the tlog set is worse than
(EXPECTED_TLOG_FITNESS, desiredLogs) under AcrossDatacenterFitness or
the best datacenter is worse than (EXPECTED_PROXY_FITNESS,
EXPECTED_RESOLVER_FITNESS, desiredProxies, desiredResolvers) under
InDatacenterFitness; otherwise it returns the recruited tLogs, proxies
and resolvers. -/
theorem C7_recruitment_grace_window (mcf : ProcessClass → ClusterRole → Nat)
    (avail : Worker → Bool)
    (fbps : List WorkerInfo → (List Locality → Bool) → Nat → Option (List WorkerInfo))
    (shuffle : List (Option Nat × WorkerInfo) → List (Option Nat × WorkerInfo))
    (tie : Nat → Bool) (id_worker : WorkerRegistry) (conf : DatabaseConfiguration)
    (masterProcessId : Option Nat) (elapsed waitForGoodDelay : Nat)
    (expectedTlogFit expectedProxyFit expectedResolverFit : Nat)
    (tlogs : List WorkerInfo) (bestFitness : InDatacenterFitness)
    (proxies resolvers : List (Worker × ProcessClass))
    (hplace : findWorkersPlacement mcf avail fbps shuffle tie id_worker conf
        masterProcessId = .ok (tlogs, bestFitness, proxies, resolvers)) :
    (findWorkersForConfiguration mcf avail fbps shuffle tie id_worker conf masterProcessId
        elapsed waitForGoodDelay expectedTlogFit expectedProxyFit expectedResolverFit =
        .error CCError.operationFailed ↔
      (elapsed < waitForGoodDelay ∧
        (AcrossDatacenterFitness.ltB ⟨expectedTlogFit, conf.desiredLogs⟩
            (acrossFitnessOf mcf tlogs) = true ∨
          InDatacenterFitness.ltB
            ⟨expectedProxyFit, expectedResolverFit, conf.desiredProxies, conf.desiredResolvers⟩
            bestFitness = true))) ∧
    (¬(elapsed < waitForGoodDelay ∧
        (AcrossDatacenterFitness.ltB ⟨expectedTlogFit, conf.desiredLogs⟩
            (acrossFitnessOf mcf tlogs) = true ∨
          InDatacenterFitness.ltB
            ⟨expectedProxyFit, expectedResolverFit, conf.desiredProxies, conf.desiredResolvers⟩
            bestFitness = true)) →
      findWorkersForConfiguration mcf avail fbps shuffle tie id_worker conf masterProcessId
          elapsed waitForGoodDelay expectedTlogFit expectedProxyFit expectedResolverFit =
        .ok ⟨tlogs.map (fun w => w.interf), proxies.map Prod.fst, resolvers.map Prod.fst⟩) := by
  constructor
  · simp only [findWorkersForConfiguration, hplace]
    by_cases hc : elapsed < waitForGoodDelay ∧
        (AcrossDatacenterFitness.ltB ⟨expectedTlogFit, conf.desiredLogs⟩
            (acrossFitnessOf mcf tlogs) = true ∨
          InDatacenterFitness.ltB
            ⟨expectedProxyFit, expectedResolverFit, conf.desiredProxies, conf.desiredResolvers⟩
            bestFitness = true)
    · rw [if_pos hc]
      simp [hc]
    · rw [if_neg hc]
      constructor
      · intro h
        cases h
      · intro h
        exact absurd h hc
  · intro hc
    simp only [findWorkersForConfiguration, hplace]
    rw [if_neg hc]


/-- C7 witness: two best-fit workers in one datacenter, replication
factor 1, desired logs 2, one proxy and one resolver desired; with the
grace window already elapsed the recruitment returns tlogs on workers
1 and 2, the proxy on worker 2 and the resolver on worker 1. -/
theorem C7_recruitment_grace_window_witness :
    findWorkersForConfiguration (fun _ _ => 0) (fun _ => true) (fun _ _ _ => none) id
        (fun _ => false)
        [(some 1, ⟨0, 0, 0, 0, ⟨1, 1, ⟨some 1, some 1, none, some 0⟩⟩,
            ⟨ClassType.unset, ClassSource.unsetSrc⟩, ⟨ClassType.unset, ClassSource.unsetSrc⟩⟩),
          (some 2, ⟨0, 0, 0, 0, ⟨2, 2, ⟨some 2, some 2, none, some 0⟩⟩,
            ⟨ClassType.unset, ClassSource.unsetSrc⟩, ⟨ClassType.unset, ClassSource.unsetSrc⟩⟩)]
        ⟨1, 2, 1, 1, [], fun _ => true⟩ (some 99) 5 0 1 1 1 =
      .ok ⟨[⟨1, 1, ⟨some 1, some 1, none, some 0⟩⟩, ⟨2, 2, ⟨some 2, some 2, none, some 0⟩⟩],
        [⟨2, 2, ⟨some 2, some 2, none, some 0⟩⟩],
        [⟨1, 1, ⟨some 1, some 1, none, some 0⟩⟩]⟩ :=
  (C7_recruitment_grace_window (fun _ _ => 0) (fun _ => true) (fun _ _ _ => none) id
    (fun _ => false)
    [(some 1, ⟨0, 0, 0, 0, ⟨1, 1, ⟨some 1, some 1, none, some 0⟩⟩,
        ⟨ClassType.unset, ClassSource.unsetSrc⟩, ⟨ClassType.unset, ClassSource.unsetSrc⟩⟩),
      (some 2, ⟨0, 0, 0, 0, ⟨2, 2, ⟨some 2, some 2, none, some 0⟩⟩,
        ⟨ClassType.unset, ClassSource.unsetSrc⟩, ⟨ClassType.unset, ClassSource.unsetSrc⟩⟩)]
    ⟨1, 2, 1, 1, [], fun _ => true⟩ (some 99) 5 0 1 1 1
    [⟨0, 0, 0, 0, ⟨1, 1, ⟨some 1, some 1, none, some 0⟩⟩,
        ⟨ClassType.unset, ClassSource.unsetSrc⟩, ⟨ClassType.unset, ClassSource.unsetSrc⟩⟩,
      ⟨0, 0, 0, 0, ⟨2, 2, ⟨some 2, some 2, none, some 0⟩⟩,
        ⟨ClassType.unset, ClassSource.unsetSrc⟩, ⟨ClassType.unset, ClassSource.unsetSrc⟩⟩]
    ⟨0, 0, 1, 1⟩
    [(⟨2, 2, ⟨some 2, some 2, none, some 0⟩⟩, ⟨ClassType.unset, ClassSource.unsetSrc⟩)]
    [(⟨1, 1, ⟨some 1, some 1, none, some 0⟩⟩, ⟨ClassType.unset, ClassSource.unsetSrc⟩)]
    rfl).2 (by decide)

end CCModel
